import Mathlib

/-!
Shallow embedding of `horovod/torch/mpi_ops.py`: the asynchronous collective
dispatch layer (divisor/op policy, tensor validation, handle table) and the
autograd backward rules for allgather and broadcast.
-/

namespace Horovod

/-- Reduction-op variants exposed by the layer (`Average`, `Sum`, `Adasum`). -/
inductive ReduceOp
  | Average
  | Sum
  | Adasum
deriving DecidableEq, Repr

/-- Topology and build facts consumed from `horovod.common.basics` and
`horovod.common.util` (`size()`, `local_size()`, `rank()`, `rocm_built()`,
`nccl_built()`, `gpu_available('torch')`, `is_homogeneous()`). These are
read-only process-lifetime constants supplied by an external component. -/
structure Env where
  size : Nat
  local_size : Nat
  rank : Nat
  rocm_built : Bool
  nccl_built : Bool
  gpu_available : Bool
  is_homogeneous : Bool
deriving DecidableEq, Repr

/-- The facets of a torch tensor this layer inspects: `tensor.type()` (a
string such as "torch.FloatTensor"), `tensor.device.type` (for example "cpu"
or "cuda"), and `tensor.is_contiguous()`. -/
structure Tensor where
  ttype : String
  deviceType : String
  contiguous : Bool
deriving DecidableEq, Repr

instance : Inhabited Tensor := ⟨⟨"", "", true⟩⟩

/-- Errors raised by the layer: `ValueError` for an unsupported tensor type,
`ValueError` for a non-contiguous tensor, `NotImplementedError` for topology
capability violations, and `HorovodInternalError` wrapping backend
`RuntimeError`s. -/
inductive HvdError
  | unsupportedType (ttype : String)
  | notContiguous
  | notImplemented (msg : String)
  | internalError (msg : String)
deriving DecidableEq, Repr

/-- The module constant `_NULL` passed as the encoded name when none is
given. -/
def _NULL : String := ""

/-- Modelled from the spec: `num_rank_is_power_2` (imported from
`horovod.common.util`, whose source is not included) — tests whether the
given rank count is a power of two. -/
def num_rank_is_power_2 (n : Nat) : Bool :=
  (List.range (n + 1)).any (fun k => n == 2 ^ k)

/-- Python `str.replace('.', '_')` specialised to single characters, used by
the backend-function-name factories. -/
def replaceDots (s : String) : String :=
  ⟨s.data.map (fun c => if c = '.' then '_' else c)⟩

/-- Embeds `_allreduce_function_factory`. -/
def _allreduce_function_factory (t : Tensor) : String :=
  "horovod_torch_allreduce_async_" ++ replaceDots t.ttype

/-- Embeds `_grouped_allreduce_function_factory`. -/
def _grouped_allreduce_function_factory (t : Tensor) : String :=
  "horovod_torch_grouped_allreduce_async_" ++ replaceDots t.ttype

/-- Embeds `_allgather_function_factory`. -/
def _allgather_function_factory (t : Tensor) : String :=
  "horovod_torch_allgather_async_" ++ replaceDots t.ttype

/-- Embeds `_broadcast_function_factory`. -/
def _broadcast_function_factory (t : Tensor) : String :=
  "horovod_torch_broadcast_async_" ++ replaceDots t.ttype

/-- Embeds `_alltoall_function_factory`. -/
def _alltoall_function_factory (t : Tensor) : String :=
  "horovod_torch_alltoall_async_" ++ replaceDots t.ttype

/-- One element of a Python tuple stored in `_handle_map`: either a single
tensor or a tuple of tensors (the grouped variants store `tuple(tensors)`). -/
inductive Operand
  | single (t : Tensor)
  | group (ts : List Tensor)
deriving DecidableEq, Repr

/-- A handle is the opaque integer returned by the backend submission. -/
abbrev Handle := Nat

/-- The Python tuple stored under a handle in `_handle_map`; its last element
is always the output operand. -/
abbrev Entry := List Operand

/-- The `_handle_map` dict: handle to operand tuple, insertion ordered. -/
abbrev HandleMap := List (Handle × Entry)

/-- Python `handle in _handle_map`. -/
def hmContains (m : HandleMap) (h : Handle) : Bool :=
  m.any (fun p => p.1 == h)

/-- Python `_handle_map[handle]` read (first binding wins; keys are unique
under dict semantics). -/
def hmLookup : HandleMap → Handle → Option Entry
  | [], _ => none
  | (k, v) :: rest, h => if k = h then some v else hmLookup rest h

/-- Python dict assignment `_handle_map[handle] = entry`: replaces the value
in place when the key is present, appends otherwise. -/
def hmSet : HandleMap → Handle → Entry → HandleMap
  | [], h, v => [(h, v)]
  | (k, w) :: rest, h, v =>
    if k = h then (h, v) :: rest else (k, w) :: hmSet rest h v

/-- Python `_handle_map.pop(handle)`'s removal effect (keys are unique under
dict semantics, so removing every binding of the key is removing its one
binding). -/
def hmErase (m : HandleMap) (h : Handle) : HandleMap :=
  m.filter (fun p => p.1 != h)

/-- One asynchronous submission call made on `mpi_lib`, with the arguments the
source passes (tensors, divisor, encoded name, op, scale factors, root rank,
splits). -/
inductive Submission
  | allreduce (function : String) (tensor output : Tensor) (divisor : Nat)
      (name : String) (op : ReduceOp) (prescale postscale : Rat)
  | groupedAllreduce (function : String) (tensors outputs : List Tensor)
      (divisor : Nat) (name : String) (op : ReduceOp) (prescale postscale : Rat)
  | allgather (function : String) (tensor output : Tensor) (name : String)
  | broadcast (function : String) (tensor output : Tensor) (root : Nat)
      (name : String)
  | alltoall (function : String) (tensor splits output : Tensor) (name : String)
deriving DecidableEq, Repr

/-- Divisor argument of a reduce-family submission, if any. -/
def Submission.divisorArg : Submission → Option Nat
  | .allreduce _ _ _ d _ _ _ _ => some d
  | .groupedAllreduce _ _ _ d _ _ _ _ => some d
  | _ => none

/-- Reduction-op argument of a reduce-family submission, if any. -/
def Submission.opArg : Submission → Option ReduceOp
  | .allreduce _ _ _ _ _ op _ _ => some op
  | .groupedAllreduce _ _ _ _ _ op _ _ => some op
  | _ => none

/-- The `mpi_lib` backend at its interface boundary: `hasattr` over entry
point names, the asynchronous submission call (a `RuntimeError` message or a
handle), and `horovod_torch_wait_and_clear`. -/
structure Backend where
  hasattr : String → Bool
  call : Submission → Except String Handle
  wait : Handle → Except String Unit

deriving instance DecidableEq for Except

/-- Outcome of one dispatch call: the returned handle or raised error, the
handle map after the call, the backend submissions performed, and the
warnings emitted. -/
structure DispatchResult where
  result : Except HvdError Handle
  hmap : HandleMap
  submitted : List Submission
  warnings : List String
deriving DecidableEq, Repr

/-- The warning text of `_allreduce_async` / `_grouped_allreduce_async` on the
Adasum-on-GPU-without-NCCL fallback path. -/
def adasumGpuMpiWarning : String :=
  "Adasum reduction does not currently support GPU reduction using MPI. Tensors are copied to CPU memory instead. To use Adasum for GPU reduction, please compile Horovod with HOROVOD_GPU_OPERATIONS=NCCL."

/-- Embeds the divisor/op selection block shared verbatim (modulo `tensor`
versus `tensors[0]`) by `_allreduce_async` (lines 83 to 114) and
`_grouped_allreduce_async` (lines 267 to 297): given the requested op and the
inspected tensor's `device.type`, produce the divisor, the effective op, and
the warnings, or raise a `NotImplementedError`. -/
def _allreduce_divisor_policy (env : Env) (deviceType : String) (op : ReduceOp) :
    Except HvdError (Nat × ReduceOp × List String) :=
  if op = .Average then
    if env.rocm_built then .ok (env.size, .Sum, [])
    else .ok (1, op, [])
  else if op = .Adasum then
    if deviceType ≠ "cpu" ∧ env.gpu_available then
      if env.nccl_built then
        if !env.is_homogeneous then
          .error (.notImplemented ("Running GPU Adasum on heterogeneous cluster is not supported yet."))
        else if !num_rank_is_power_2 (env.size / env.local_size) then
          .error (.notImplemented ("Running GPU Adasum with non-power of 2 nodes is not supported yet."))
        else if env.rocm_built then .ok (env.local_size, op, [])
        else .ok (1, op, [])
      else .ok (1, op, [adasumGpuMpiWarning])
    else
      if !num_rank_is_power_2 env.size then
        .error (.notImplemented ("Running Adasum with non-power of 2 ranks is not supported yet."))
      else .ok (1, op, [])
  else .ok (1, op, [])

/-- Embeds `_check_function`: unsupported tensor type raises a `ValueError`,
then a non-contiguous tensor raises a `ValueError`, else the backend entry
point name is returned. -/
def _check_function (b : Backend) (function_factory : Tensor → String)
    (tensor : Tensor) : Except HvdError String :=
  let function := function_factory tensor
  if !b.hasattr function then .error (.unsupportedType tensor.ttype)
  else if !tensor.contiguous then .error .notContiguous
  else .ok function

/-- Embeds `_allreduce_async`: divisor/op policy, validation, backend
submission (a `RuntimeError` is wrapped into `HorovodInternalError`), and
registration of `(tensor, output)` under the returned handle. -/
def _allreduce_async (env : Env) (b : Backend) (st : HandleMap)
    (tensor output : Tensor) (name : Option String) (op : ReduceOp)
    (prescale_factor postscale_factor : Rat) : DispatchResult :=
  match _allreduce_divisor_policy env tensor.deviceType op with
  | .error e => ⟨.error e, st, [], []⟩
  | .ok (divisor, op, ws) =>
    match _check_function b _allreduce_function_factory tensor with
    | .error e => ⟨.error e, st, [], ws⟩
    | .ok function =>
      let sub := Submission.allreduce function tensor output divisor
        (name.getD _NULL) op prescale_factor postscale_factor
      match b.call sub with
      | .error e => ⟨.error (.internalError e), st, [sub], ws⟩
      | .ok handle =>
        ⟨.ok handle, hmSet st handle [.single tensor, .single output], [sub], ws⟩

/-- Embeds `_grouped_allreduce_async`: the same policy evaluated at
`tensors[0].device.type`, validation of `tensors[0]` only, backend
submission, and registration of `(tuple(tensors), tuple(outputs))`. -/
def _grouped_allreduce_async (env : Env) (b : Backend) (st : HandleMap)
    (tensors outputs : List Tensor) (name : Option String) (op : ReduceOp)
    (prescale_factor postscale_factor : Rat) : DispatchResult :=
  match _allreduce_divisor_policy env tensors.headI.deviceType op with
  | .error e => ⟨.error e, st, [], []⟩
  | .ok (divisor, op, ws) =>
    match _check_function b _grouped_allreduce_function_factory tensors.headI with
    | .error e => ⟨.error e, st, [], ws⟩
    | .ok function =>
      let sub := Submission.groupedAllreduce function tensors outputs divisor
        (name.getD _NULL) op prescale_factor postscale_factor
      match b.call sub with
      | .error e => ⟨.error (.internalError e), st, [sub], ws⟩
      | .ok handle =>
        ⟨.ok handle, hmSet st handle [.group tensors, .group outputs], [sub], ws⟩

/-- Embeds `_allgather_async`. -/
def _allgather_async (b : Backend) (st : HandleMap) (tensor output : Tensor)
    (name : Option String) : DispatchResult :=
  match _check_function b _allgather_function_factory tensor with
  | .error e => ⟨.error e, st, [], []⟩
  | .ok function =>
    let sub := Submission.allgather function tensor output (name.getD _NULL)
    match b.call sub with
    | .error e => ⟨.error (.internalError e), st, [sub], []⟩
    | .ok handle =>
      ⟨.ok handle, hmSet st handle [.single tensor, .single output], [sub], []⟩

/-- Embeds `_broadcast_async`. -/
def _broadcast_async (b : Backend) (st : HandleMap) (tensor output : Tensor)
    (root_rank : Nat) (name : Option String) : DispatchResult :=
  match _check_function b _broadcast_function_factory tensor with
  | .error e => ⟨.error e, st, [], []⟩
  | .ok function =>
    let sub := Submission.broadcast function tensor output root_rank (name.getD _NULL)
    match b.call sub with
    | .error e => ⟨.error (.internalError e), st, [sub], []⟩
    | .ok handle =>
      ⟨.ok handle, hmSet st handle [.single tensor, .single output], [sub], []⟩

/-- The placeholder splits tensor `torch.tensor([], dtype=torch.int32,
device='cpu')` built by `_alltoall_async` when no splits are given. -/
def emptySplitsTensor : Tensor :=
  ⟨"torch.IntTensor", "cpu", true⟩

/-- Embeds `_alltoall_async`: a missing splits argument is replaced with an
empty int32 CPU tensor, then validation, submission, and registration of
`(tensor, splits, output)`. -/
def _alltoall_async (b : Backend) (st : HandleMap) (tensor : Tensor)
    (splits : Option Tensor) (output : Tensor) (name : Option String) :
    DispatchResult :=
  let splitsT := splits.getD emptySplitsTensor
  match _check_function b _alltoall_function_factory tensor with
  | .error e => ⟨.error e, st, [], []⟩
  | .ok function =>
    let sub := Submission.alltoall function tensor splitsT output (name.getD _NULL)
    match b.call sub with
    | .error e => ⟨.error (.internalError e), st, [sub], []⟩
    | .ok handle =>
      ⟨.ok handle,
        hmSet st handle [.single tensor, .single splitsT, .single output],
        [sub], []⟩

/-- Embeds `synchronize`: a handle absent from `_handle_map` returns `None`
immediately; otherwise the call waits on the backend (a `RuntimeError` is
wrapped into `HorovodInternalError`), pops the entry, and returns its last
element. -/
def synchronize (b : Backend) (st : HandleMap) (h : Handle) :
    Except HvdError (Option Operand) × HandleMap :=
  if !hmContains st h then (.ok none, st)
  else
    match b.wait h with
    | .error e => (.error (.internalError e), st)
    | .ok _ => (.ok (((hmLookup st h).getD []).getLast?), hmErase st h)

/-- An `allreduce` with `op=Sum` seen across the whole job: the elementwise
sum of the per-rank gradient tensors (each tensor a flat list of rows). -/
def sumReduce [Add α] : List (List α) → List α
  | [] => []
  | g :: gs => gs.foldl (fun acc x => List.zipWith (· + ·) acc x) g

/-- The allgather forward result: concatenation of every rank's rows along
dimension zero, in rank order. -/
def allgatherForward (xs : List (List α)) : List α := xs.flatten

/-- Embeds `HorovodAllgather.backward` as run on rank `r`: sum-reduce the
incoming per-rank gradients, gather every rank's dimension-zero extent into
`dims` (the result of `allgather(dim_t).view(size())`), compute the offset as
the sum of the extents of ranks below `r` (literally `0` when `r == 0`), and
`narrow` the reduced gradient at `[offset, offset + ctxDim)`. -/
def allgatherBackward [Add α] (dims : List Nat) (r : Nat) (ctxDim : Nat)
    (grads : List (List α)) : List α :=
  let grad_reduced := sumReduce grads
  let offset := if r ≠ 0 then ((dims.take r).sum) else 0
  (grad_reduced.drop offset).take ctxDim

/-- Embeds `HorovodBroadcast.backward` as run on rank `r` with root
`root_rank`: sum-reduce the incoming per-rank gradients, then multiply the
result elementwise by zero on every rank other than the root. -/
def broadcastBackward [Add α] [Mul α] [OfNat α 0] (r root_rank : Nat)
    (grads : List (List α)) : List α :=
  let grad_reduced := sumReduce grads
  if r ≠ root_rank then grad_reduced.map (· * 0) else grad_reduced

end Horovod

namespace Horovod

/-- The power-of-two test agrees with the mathematical notion. -/
theorem num_rank_is_power_2_iff (n : Nat) :
    num_rank_is_power_2 n = true ↔ ∃ k, n = 2 ^ k := by
  unfold num_rank_is_power_2
  rw [List.any_eq_true]
  constructor
  · rintro ⟨k, _, hk⟩
    exact ⟨k, by simpa using hk⟩
  · rintro ⟨k, rfl⟩
    refine ⟨k, List.mem_range.mpr ?_, by simp⟩
    exact Nat.lt_succ_of_lt (Nat.lt_two_pow k)

/-- Folding elementwise addition over tensors of one common length preserves
that length. -/
theorem foldl_zipWith_add_length [Add α] (gs : List (List α)) (g : List α)
    (L : Nat) (hbase : g.length = L) (hlen : ∀ x ∈ gs, x.length = L) :
    (gs.foldl (fun acc x => List.zipWith (· + ·) acc x) g).length = L := by
  induction gs generalizing g with
  | nil => simpa using hbase
  | cons x gs ih =>
    simp only [List.foldl_cons]
    refine ih _ ?_ (fun y hy => hlen y (by simp [hy]))
    simp [hbase, hlen x (by simp)]

/-- Elementwise summation preserves the common length of the summands. -/
theorem sumReduce_length [Add α] (gs : List (List α)) (L : Nat)
    (hne : gs ≠ []) (hlen : ∀ g ∈ gs, g.length = L) :
    (sumReduce gs).length = L := by
  match gs with
  | [] => exact absurd rfl hne
  | g :: gs =>
    show (gs.foldl (fun acc x => List.zipWith (· + ·) acc x) g).length = L
    exact foldl_zipWith_add_length gs g L (hlen g (by simp))
      (fun y hy => hlen y (by simp [hy]))

/-- Policy evaluation on an `Average` request. -/
theorem policy_average (env : Env) (dev : String) :
    _allreduce_divisor_policy env dev .Average =
      (if env.rocm_built then .ok (env.size, .Sum, [])
       else .ok (1, .Average, [])) := by
  unfold _allreduce_divisor_policy
  simp

/-- Policy evaluation on an `Adasum` request taking the CPU path (the tensor
is CPU resident, or no GPU is available). -/
theorem policy_adasum_cpu (env : Env) (dev : String)
    (hcpu : dev = "cpu" ∨ env.gpu_available = false) :
    _allreduce_divisor_policy env dev .Adasum =
      (if !num_rank_is_power_2 env.size then
        .error (.notImplemented
          ("Running Adasum with non-power of 2 ranks is not supported yet."))
       else .ok (1, .Adasum, [])) := by
  unfold _allreduce_divisor_policy
  have hcond : ¬(dev ≠ "cpu" ∧ env.gpu_available = true) := by
    rcases hcpu with h | h
    · exact fun hc => hc.1 h
    · exact fun hc => by rw [h] at hc; exact Bool.false_ne_true hc.2
  simp only [reduceCtorEq, if_false, if_neg hcond]
  split <;> simp_all

/-- Policy evaluation on an `Adasum` request for a non-CPU tensor with a GPU
available and NCCL built. -/
theorem policy_adasum_gpu_nccl (env : Env) (dev : String) (hdev : dev ≠ "cpu")
    (hgpu : env.gpu_available = true) (hnccl : env.nccl_built = true) :
    _allreduce_divisor_policy env dev .Adasum =
      (if !env.is_homogeneous then
        .error (.notImplemented
          ("Running GPU Adasum on heterogeneous cluster is not supported yet."))
       else if !num_rank_is_power_2 (env.size / env.local_size) then
        .error (.notImplemented
          ("Running GPU Adasum with non-power of 2 nodes is not supported yet."))
       else if env.rocm_built then .ok (env.local_size, .Adasum, [])
       else .ok (1, .Adasum, [])) := by
  unfold _allreduce_divisor_policy
  simp [hdev, hgpu, hnccl]

/-- Policy evaluation on an `Adasum` request for a non-CPU tensor with a GPU
available but NCCL not built: the warning-and-fallback path. -/
theorem policy_adasum_gpu_no_nccl (env : Env) (dev : String)
    (hdev : dev ≠ "cpu") (hgpu : env.gpu_available = true)
    (hnccl : env.nccl_built = false) :
    _allreduce_divisor_policy env dev .Adasum =
      .ok (1, .Adasum, [adasumGpuMpiWarning]) := by
  unfold _allreduce_divisor_policy
  simp [hdev, hgpu, hnccl]

/-- Policy evaluation on any op other than `Average` and `Adasum`. -/
theorem policy_other (env : Env) (dev : String) (op : ReduceOp)
    (h1 : op ≠ .Average) (h2 : op ≠ .Adasum) :
    _allreduce_divisor_policy env dev op = .ok (1, op, []) := by
  unfold _allreduce_divisor_policy
  simp [h1, h2]

/-- A policy error short-circuits `_allreduce_async` before validation,
submission, and registration. -/
theorem _allreduce_async_policy_error (env : Env) (b : Backend)
    (st : HandleMap) (t o : Tensor) (name : Option String) (op : ReduceOp)
    (pre post : Rat) (e : HvdError)
    (hpol : _allreduce_divisor_policy env t.deviceType op = .error e) :
    _allreduce_async env b st t o name op pre post =
      ⟨.error e, st, [], []⟩ := by
  unfold _allreduce_async
  rw [hpol]

/-- When the policy succeeds and the tensor passes both validations,
`_allreduce_async` performs exactly one submission carrying the computed
divisor and effective op, and emits the policy's warnings. -/
theorem _allreduce_async_submits (env : Env) (b : Backend) (st : HandleMap)
    (t o : Tensor) (name : Option String) (op : ReduceOp) (pre post : Rat)
    (d : Nat) (op' : ReduceOp) (ws : List String)
    (hpol : _allreduce_divisor_policy env t.deviceType op = .ok (d, op', ws))
    (hsup : b.hasattr (_allreduce_function_factory t) = true)
    (hc : t.contiguous = true) :
    (_allreduce_async env b st t o name op pre post).submitted =
      [.allreduce (_allreduce_function_factory t) t o d (name.getD _NULL) op'
        pre post] ∧
    (_allreduce_async env b st t o name op pre post).warnings = ws := by
  unfold _allreduce_async
  rw [hpol]
  unfold _check_function
  simp only [hsup, hc, Bool.not_true, Bool.false_eq_true, if_false]
  split <;> simp

/-- An unsupported tensor type fails `_allreduce_async` with the unsupported
type error, before any backend submission and with the handle map unchanged. -/
theorem _allreduce_async_unsupported (env : Env) (b : Backend)
    (st : HandleMap) (t o : Tensor) (name : Option String) (op : ReduceOp)
    (pre post : Rat) (d : Nat) (op' : ReduceOp) (ws : List String)
    (hpol : _allreduce_divisor_policy env t.deviceType op = .ok (d, op', ws))
    (hsup : b.hasattr (_allreduce_function_factory t) = false) :
    _allreduce_async env b st t o name op pre post =
      ⟨.error (.unsupportedType t.ttype), st, [], ws⟩ := by
  unfold _allreduce_async
  rw [hpol]
  unfold _check_function
  simp [hsup]

/-- A non-contiguous (but supported) tensor fails `_allreduce_async` with the
layout error, before any backend submission and with the handle map
unchanged. -/
theorem _allreduce_async_noncontiguous (env : Env) (b : Backend)
    (st : HandleMap) (t o : Tensor) (name : Option String) (op : ReduceOp)
    (pre post : Rat) (d : Nat) (op' : ReduceOp) (ws : List String)
    (hpol : _allreduce_divisor_policy env t.deviceType op = .ok (d, op', ws))
    (hsup : b.hasattr (_allreduce_function_factory t) = true)
    (hc : t.contiguous = false) :
    _allreduce_async env b st t o name op pre post =
      ⟨.error .notContiguous, st, [], ws⟩ := by
  unfold _allreduce_async
  rw [hpol]
  unfold _check_function
  simp [hsup, hc]

/-- A policy error short-circuits `_grouped_allreduce_async` before
validation, submission, and registration. -/
theorem _grouped_allreduce_async_policy_error (env : Env) (b : Backend)
    (st : HandleMap) (ts os : List Tensor) (name : Option String)
    (op : ReduceOp) (pre post : Rat) (e : HvdError)
    (hpol : _allreduce_divisor_policy env ts.headI.deviceType op = .error e) :
    _grouped_allreduce_async env b st ts os name op pre post =
      ⟨.error e, st, [], []⟩ := by
  unfold _grouped_allreduce_async
  rw [hpol]

/-- When the policy succeeds on the first tensor and that tensor passes both
validations, `_grouped_allreduce_async` performs exactly one submission
carrying the computed divisor and effective op, and emits the policy's
warnings; no other tensor in the list is validated. -/
theorem _grouped_allreduce_async_submits (env : Env) (b : Backend)
    (st : HandleMap) (ts os : List Tensor) (name : Option String)
    (op : ReduceOp) (pre post : Rat) (d : Nat) (op' : ReduceOp)
    (ws : List String)
    (hpol : _allreduce_divisor_policy env ts.headI.deviceType op = .ok (d, op', ws))
    (hsup : b.hasattr (_grouped_allreduce_function_factory ts.headI) = true)
    (hc : ts.headI.contiguous = true) :
    (_grouped_allreduce_async env b st ts os name op pre post).submitted =
      [.groupedAllreduce (_grouped_allreduce_function_factory ts.headI) ts os
        d (name.getD _NULL) op' pre post] ∧
    (_grouped_allreduce_async env b st ts os name op pre post).warnings = ws := by
  unfold _grouped_allreduce_async
  rw [hpol]
  unfold _check_function
  simp only [hsup, hc, Bool.not_true, Bool.false_eq_true, if_false]
  split <;> simp

/-- An unsupported first tensor fails `_grouped_allreduce_async` with the
unsupported type error, before any backend submission and with the handle map
unchanged. -/
theorem _grouped_allreduce_async_unsupported (env : Env) (b : Backend)
    (st : HandleMap) (ts os : List Tensor) (name : Option String)
    (op : ReduceOp) (pre post : Rat) (d : Nat) (op' : ReduceOp)
    (ws : List String)
    (hpol : _allreduce_divisor_policy env ts.headI.deviceType op = .ok (d, op', ws))
    (hsup : b.hasattr (_grouped_allreduce_function_factory ts.headI) = false) :
    _grouped_allreduce_async env b st ts os name op pre post =
      ⟨.error (.unsupportedType ts.headI.ttype), st, [], ws⟩ := by
  unfold _grouped_allreduce_async
  rw [hpol]
  unfold _check_function
  simp [hsup]

/-- A non-contiguous (but supported) first tensor fails
`_grouped_allreduce_async` with the layout error, before any backend
submission and with the handle map unchanged. -/
theorem _grouped_allreduce_async_noncontiguous (env : Env) (b : Backend)
    (st : HandleMap) (ts os : List Tensor) (name : Option String)
    (op : ReduceOp) (pre post : Rat) (d : Nat) (op' : ReduceOp)
    (ws : List String)
    (hpol : _allreduce_divisor_policy env ts.headI.deviceType op = .ok (d, op', ws))
    (hsup : b.hasattr (_grouped_allreduce_function_factory ts.headI) = true)
    (hc : ts.headI.contiguous = false) :
    _grouped_allreduce_async env b st ts os name op pre post =
      ⟨.error .notContiguous, st, [], ws⟩ := by
  unfold _grouped_allreduce_async
  rw [hpol]
  unfold _check_function
  simp [hsup, hc]

/-- Slicing a concatenation at the offset given by the lengths of the first
`k` blocks, with the length of block `k`, recovers block `k`. -/
theorem join_slice_block (xs : List (List α)) (k : Nat) (hk : k < xs.length) :
    ((xs.flatten).drop (((xs.map List.length).take k).sum)).take
        (xs.get ⟨k, hk⟩).length = xs.get ⟨k, hk⟩ := by
  induction xs generalizing k with
  | nil => exact absurd hk (by simp)
  | cons x xs ih =>
    cases k with
    | zero =>
      have hget : (x :: xs).get ⟨0, hk⟩ = x := rfl
      rw [hget]
      simp only [List.take_zero, List.sum_nil, List.drop_zero,
        List.flatten_cons]
      exact List.take_left x xs.flatten
    | succ k =>
      have hk' : k < xs.length := by simpa using hk
      have hstep : ((x :: xs).map List.length).take (k + 1) =
          x.length :: ((xs.map List.length).take k) := by simp
      have hget : (x :: xs).get ⟨k + 1, hk⟩ = xs.get ⟨k, hk'⟩ := rfl
      rw [hstep, hget]
      simp only [List.sum_cons, List.flatten_cons]
      rw [List.drop_append]
      exact ih k hk'

/-- Test fixture: a backend that supports every entry point, returns handle 7
on every submission, and completes every wait. -/
def testBackend : Backend := ⟨fun _ => true, fun _ => .ok 7, fun _ => .ok ()⟩

/-- Test fixture: a backend build with no entry points. -/
def noSupportBackend : Backend := ⟨fun _ => false, fun _ => .ok 7, fun _ => .ok ()⟩

/-- Test fixture: a contiguous CPU tensor. -/
def cpuFloatTensor : Tensor := ⟨"torch.FloatTensor", "cpu", true⟩

/-- Test fixture: a contiguous CUDA tensor. -/
def cudaFloatTensor : Tensor := ⟨"torch.cuda.FloatTensor", "cuda", true⟩

/-- Test fixture: a non-contiguous CPU tensor. -/
def stridedTensor : Tensor := ⟨"torch.FloatTensor", "cpu", false⟩

/-- Test fixture: a non-contiguous CUDA tensor. -/
def stridedCudaTensor : Tensor := ⟨"torch.cuda.FloatTensor", "cuda", false⟩

/-- Test fixture: a ROCm build, 4 ranks, 2 per node, homogeneous, NCCL. -/
def envRocm : Env := ⟨4, 2, 0, true, true, true, true⟩

/-- Test fixture: a CUDA build (no ROCm), 4 ranks, 2 per node, homogeneous. -/
def envPlain : Env := ⟨4, 2, 0, false, true, true, true⟩

/-- Test fixture: 3 ranks (not a power of two). -/
def envSize3 : Env := ⟨3, 1, 0, false, true, true, true⟩

/-- Test fixture: a heterogeneous cluster with NCCL built. -/
def envHetero : Env := ⟨8, 2, 0, false, true, true, false⟩

/-- Test fixture: 12 ranks over 4-GPU nodes (3 nodes, not a power of two). -/
def envBadNodes : Env := ⟨12, 4, 0, false, true, true, true⟩

/-- Test fixture: NCCL not built, 6 ranks over 4-GPU nodes, heterogeneous. -/
def envNoNccl : Env := ⟨6, 4, 0, false, false, true, false⟩

/-- C1: for every allreduce dispatch (single-tensor or grouped) requested with
op = Average: if the build performs reductions without native averaging
support (rocm_built), the op passed to the backend is Sum and the divisor is
world_size; otherwise the op passed is Average and the divisor is 1. -/
theorem average_effective_op_and_divisor (env : Env) (b : Backend)
    (st : HandleMap) (t o : Tensor) (ts os : List Tensor)
    (name : Option String) (pre post : Rat)
    (hsup : b.hasattr (_allreduce_function_factory t) = true)
    (hc : t.contiguous = true)
    (hsupg : b.hasattr (_grouped_allreduce_function_factory ts.headI) = true)
    (hcg : ts.headI.contiguous = true) :
    ((_allreduce_async env b st t o name .Average pre post).submitted.map
        Submission.opArg =
      [some (if env.rocm_built then ReduceOp.Sum else ReduceOp.Average)]) ∧
    ((_allreduce_async env b st t o name .Average pre post).submitted.map
        Submission.divisorArg =
      [some (if env.rocm_built then env.size else 1)]) ∧
    ((_grouped_allreduce_async env b st ts os name .Average pre post).submitted.map
        Submission.opArg =
      [some (if env.rocm_built then ReduceOp.Sum else ReduceOp.Average)]) ∧
    ((_grouped_allreduce_async env b st ts os name .Average pre post).submitted.map
        Submission.divisorArg =
      [some (if env.rocm_built then env.size else 1)]) := by
  cases hrb : env.rocm_built with
  | true =>
    have hpol : _allreduce_divisor_policy env t.deviceType .Average =
        .ok (env.size, .Sum, []) := by rw [policy_average, hrb]; simp
    have hpolg : _allreduce_divisor_policy env ts.headI.deviceType .Average =
        .ok (env.size, .Sum, []) := by rw [policy_average, hrb]; simp
    have h1 := _allreduce_async_submits env b st t o name .Average pre post
      env.size .Sum [] hpol hsup hc
    have h2 := _grouped_allreduce_async_submits env b st ts os name .Average
      pre post env.size .Sum [] hpolg hsupg hcg
    refine ⟨?_, ?_, ?_, ?_⟩ <;>
      simp [h1.1, h2.1, hrb, Submission.opArg, Submission.divisorArg]
  | false =>
    have hpol : _allreduce_divisor_policy env t.deviceType .Average =
        .ok (1, .Average, []) := by rw [policy_average, hrb]; simp
    have hpolg : _allreduce_divisor_policy env ts.headI.deviceType .Average =
        .ok (1, .Average, []) := by rw [policy_average, hrb]; simp
    have h1 := _allreduce_async_submits env b st t o name .Average pre post
      1 .Average [] hpol hsup hc
    have h2 := _grouped_allreduce_async_submits env b st ts os name .Average
      pre post 1 .Average [] hpolg hsupg hcg
    refine ⟨?_, ?_, ?_, ?_⟩ <;>
      simp [h1.1, h2.1, hrb, Submission.opArg, Submission.divisorArg]

/-- Witness for C1, on a ROCm build and on a non-ROCm build. -/
theorem average_effective_op_and_divisor_witness :
    (((_allreduce_async envRocm testBackend [] cpuFloatTensor cpuFloatTensor
        none .Average 1 1).submitted.map Submission.opArg =
      [some (if envRocm.rocm_built then ReduceOp.Sum else ReduceOp.Average)]) ∧
     ((_allreduce_async envRocm testBackend [] cpuFloatTensor cpuFloatTensor
        none .Average 1 1).submitted.map Submission.divisorArg =
      [some (if envRocm.rocm_built then envRocm.size else 1)]) ∧
     ((_grouped_allreduce_async envRocm testBackend [] [cpuFloatTensor]
        [cpuFloatTensor] none .Average 1 1).submitted.map Submission.opArg =
      [some (if envRocm.rocm_built then ReduceOp.Sum else ReduceOp.Average)]) ∧
     ((_grouped_allreduce_async envRocm testBackend [] [cpuFloatTensor]
        [cpuFloatTensor] none .Average 1 1).submitted.map Submission.divisorArg =
      [some (if envRocm.rocm_built then envRocm.size else 1)])) ∧
    (((_allreduce_async envPlain testBackend [] cpuFloatTensor cpuFloatTensor
        none .Average 1 1).submitted.map Submission.opArg =
      [some (if envPlain.rocm_built then ReduceOp.Sum else ReduceOp.Average)]) ∧
     ((_allreduce_async envPlain testBackend [] cpuFloatTensor cpuFloatTensor
        none .Average 1 1).submitted.map Submission.divisorArg =
      [some (if envPlain.rocm_built then envPlain.size else 1)]) ∧
     ((_grouped_allreduce_async envPlain testBackend [] [cpuFloatTensor]
        [cpuFloatTensor] none .Average 1 1).submitted.map Submission.opArg =
      [some (if envPlain.rocm_built then ReduceOp.Sum else ReduceOp.Average)]) ∧
     ((_grouped_allreduce_async envPlain testBackend [] [cpuFloatTensor]
        [cpuFloatTensor] none .Average 1 1).submitted.map Submission.divisorArg =
      [some (if envPlain.rocm_built then envPlain.size else 1)])) :=
  ⟨average_effective_op_and_divisor envRocm testBackend [] cpuFloatTensor
      cpuFloatTensor [cpuFloatTensor] [cpuFloatTensor] none 1 1
      rfl rfl rfl rfl,
   average_effective_op_and_divisor envPlain testBackend [] cpuFloatTensor
      cpuFloatTensor [cpuFloatTensor] [cpuFloatTensor] none 1 1
      rfl rfl rfl rfl⟩

/-- C2: for an Adasum allreduce on a CPU-resident tensor (or with no GPU
available): a non-power-of-two world size fails with the capability error
before any backend submission and leaves the handle table unchanged; a
power-of-two world size resolves the divisor to 1. -/
theorem adasum_cpu_power_of_two (env : Env) (b : Backend) (st : HandleMap)
    (t o : Tensor) (name : Option String) (pre post : Rat)
    (hcpu : t.deviceType = "cpu" ∨ env.gpu_available = false) :
    ((¬ ∃ k, env.size = 2 ^ k) →
      _allreduce_async env b st t o name .Adasum pre post =
        ⟨.error (.notImplemented
          ("Running Adasum with non-power of 2 ranks is not supported yet.")),
          st, [], []⟩) ∧
    ((∃ k, env.size = 2 ^ k) →
      b.hasattr (_allreduce_function_factory t) = true →
      t.contiguous = true →
      (_allreduce_async env b st t o name .Adasum pre post).submitted.map
        Submission.divisorArg = [some 1]) := by
  constructor
  · intro hnp2
    have hb : num_rank_is_power_2 env.size = false :=
      Bool.eq_false_iff.mpr
        (fun hx => hnp2 ((num_rank_is_power_2_iff env.size).mp hx))
    have hpol : _allreduce_divisor_policy env t.deviceType .Adasum =
        .error (.notImplemented
          ("Running Adasum with non-power of 2 ranks is not supported yet.")) := by
      rw [policy_adasum_cpu env t.deviceType hcpu, hb]; simp
    exact _allreduce_async_policy_error env b st t o name .Adasum pre post _ hpol
  · intro hp2 hsup hc
    have hb : num_rank_is_power_2 env.size = true :=
      (num_rank_is_power_2_iff env.size).mpr hp2
    have hpol : _allreduce_divisor_policy env t.deviceType .Adasum =
        .ok (1, .Adasum, []) := by
      rw [policy_adasum_cpu env t.deviceType hcpu, hb]; simp
    have h := _allreduce_async_submits env b st t o name .Adasum pre post
      1 .Adasum [] hpol hsup hc
    simp [h.1, Submission.divisorArg]

/-- Witness for C2: 3 ranks fail, 4 ranks resolve the divisor to 1. -/
theorem adasum_cpu_power_of_two_witness :
    (_allreduce_async envSize3 testBackend [] cpuFloatTensor cpuFloatTensor
        none .Adasum 1 1 =
      ⟨.error (.notImplemented
        ("Running Adasum with non-power of 2 ranks is not supported yet.")),
        [], [], []⟩) ∧
    ((_allreduce_async envPlain testBackend [] cpuFloatTensor cpuFloatTensor
        none .Adasum 1 1).submitted.map Submission.divisorArg = [some 1]) :=
  ⟨(adasum_cpu_power_of_two envSize3 testBackend [] cpuFloatTensor
      cpuFloatTensor none 1 1 (Or.inl rfl)).1
      (fun hx => absurd ((num_rank_is_power_2_iff envSize3.size).mpr hx)
        (by decide)),
   (adasum_cpu_power_of_two envPlain testBackend [] cpuFloatTensor
      cpuFloatTensor none 1 1 (Or.inl rfl)).2
      ⟨2, by decide⟩ rfl rfl⟩

/-- C3: for an Adasum allreduce on a non-CPU tensor with a GPU available and
NCCL built: a heterogeneous cluster fails with the capability error before
any backend submission; a non-power-of-two node count fails likewise; with
both checks passing, the divisor passed to the backend is local_size on a
ROCm build and 1 otherwise. -/
theorem adasum_gpu_nccl_topology (env : Env) (b : Backend) (st : HandleMap)
    (t o : Tensor) (name : Option String) (pre post : Rat)
    (hdev : t.deviceType ≠ "cpu") (hgpu : env.gpu_available = true)
    (hnccl : env.nccl_built = true) (hls : 0 < env.local_size) :
    (env.is_homogeneous = false →
      _allreduce_async env b st t o name .Adasum pre post =
        ⟨.error (.notImplemented
          ("Running GPU Adasum on heterogeneous cluster is not supported yet.")),
          st, [], []⟩) ∧
    (env.is_homogeneous = true →
      (¬ ∃ k, env.size / env.local_size = 2 ^ k) →
      _allreduce_async env b st t o name .Adasum pre post =
        ⟨.error (.notImplemented
          ("Running GPU Adasum with non-power of 2 nodes is not supported yet.")),
          st, [], []⟩) ∧
    (env.is_homogeneous = true →
      (∃ k, env.size / env.local_size = 2 ^ k) →
      b.hasattr (_allreduce_function_factory t) = true →
      t.contiguous = true →
      (_allreduce_async env b st t o name .Adasum pre post).submitted.map
        Submission.divisorArg =
        [some (if env.rocm_built then env.local_size else 1)]) := by
  refine ⟨?_, ?_, ?_⟩
  · intro hhet
    have hpol : _allreduce_divisor_policy env t.deviceType .Adasum =
        .error (.notImplemented
          ("Running GPU Adasum on heterogeneous cluster is not supported yet.")) := by
      rw [policy_adasum_gpu_nccl env t.deviceType hdev hgpu hnccl, hhet]; simp
    exact _allreduce_async_policy_error env b st t o name .Adasum pre post _ hpol
  · intro hhom hnp2
    have hb : num_rank_is_power_2 (env.size / env.local_size) = false :=
      Bool.eq_false_iff.mpr
        (fun hx => hnp2 ((num_rank_is_power_2_iff _).mp hx))
    have hpol : _allreduce_divisor_policy env t.deviceType .Adasum =
        .error (.notImplemented
          ("Running GPU Adasum with non-power of 2 nodes is not supported yet.")) := by
      rw [policy_adasum_gpu_nccl env t.deviceType hdev hgpu hnccl, hhom, hb]
      simp
    exact _allreduce_async_policy_error env b st t o name .Adasum pre post _ hpol
  · intro hhom hp2 hsup hc
    have hb : num_rank_is_power_2 (env.size / env.local_size) = true :=
      (num_rank_is_power_2_iff _).mpr hp2
    cases hrb : env.rocm_built with
    | true =>
      have hpol : _allreduce_divisor_policy env t.deviceType .Adasum =
          .ok (env.local_size, .Adasum, []) := by
        rw [policy_adasum_gpu_nccl env t.deviceType hdev hgpu hnccl, hhom, hb,
          hrb]
        simp
      have h := _allreduce_async_submits env b st t o name .Adasum pre post
        env.local_size .Adasum [] hpol hsup hc
      simp [h.1, hrb, Submission.divisorArg]
    | false =>
      have hpol : _allreduce_divisor_policy env t.deviceType .Adasum =
          .ok (1, .Adasum, []) := by
        rw [policy_adasum_gpu_nccl env t.deviceType hdev hgpu hnccl, hhom, hb,
          hrb]
        simp
      have h := _allreduce_async_submits env b st t o name .Adasum pre post
        1 .Adasum [] hpol hsup hc
      simp [h.1, hrb, Submission.divisorArg]

/-- Witness for C3: a heterogeneous cluster fails, 3 nodes fail, and a
homogeneous power-of-two-node cluster resolves the divisor (1 on the CUDA
build, local_size on the ROCm build). -/
theorem adasum_gpu_nccl_topology_witness :
    (_allreduce_async envHetero testBackend [] cudaFloatTensor cudaFloatTensor
        none .Adasum 1 1 =
      ⟨.error (.notImplemented
        ("Running GPU Adasum on heterogeneous cluster is not supported yet.")),
        [], [], []⟩) ∧
    (_allreduce_async envBadNodes testBackend [] cudaFloatTensor
        cudaFloatTensor none .Adasum 1 1 =
      ⟨.error (.notImplemented
        ("Running GPU Adasum with non-power of 2 nodes is not supported yet.")),
        [], [], []⟩) ∧
    ((_allreduce_async envPlain testBackend [] cudaFloatTensor cudaFloatTensor
        none .Adasum 1 1).submitted.map Submission.divisorArg =
      [some (if envPlain.rocm_built then envPlain.local_size else 1)]) ∧
    ((_allreduce_async envRocm testBackend [] cudaFloatTensor cudaFloatTensor
        none .Adasum 1 1).submitted.map Submission.divisorArg =
      [some (if envRocm.rocm_built then envRocm.local_size else 1)]) :=
  ⟨(adasum_gpu_nccl_topology envHetero testBackend [] cudaFloatTensor
      cudaFloatTensor none 1 1 (by decide) rfl rfl (by decide)).1 rfl,
   (adasum_gpu_nccl_topology envBadNodes testBackend [] cudaFloatTensor
      cudaFloatTensor none 1 1 (by decide) rfl rfl (by decide)).2.1 rfl
      (fun hx => absurd
        ((num_rank_is_power_2_iff
          (envBadNodes.size / envBadNodes.local_size)).mpr hx)
        (by decide)),
   (adasum_gpu_nccl_topology envPlain testBackend [] cudaFloatTensor
      cudaFloatTensor none 1 1 (by decide) rfl rfl (by decide)).2.2 rfl
      ⟨1, by decide⟩ rfl rfl,
   (adasum_gpu_nccl_topology envRocm testBackend [] cudaFloatTensor
      cudaFloatTensor none 1 1 (by decide) rfl rfl (by decide)).2.2 rfl
      ⟨1, by decide⟩ rfl rfl⟩

/-- C4: for every collective dispatch, an unsupported tensor type fails with
the unsupported-type error and a non-contiguous tensor fails with the layout
error; both failures occur before any backend submission and leave the handle
map unchanged. For the two reduce dispatchers the divisor/op policy runs
first, so the statement is conditional on the policy having produced a
result. -/
theorem validation_errors_pre_dispatch (env : Env) (b : Backend)
    (st : HandleMap) (t o : Tensor) (ts os : List Tensor)
    (name : Option String) (op : ReduceOp) (pre post : Rat) (d : Nat)
    (op' : ReduceOp) (ws : List String) (root : Nat)
    (splits : Option Tensor) :
    (_allreduce_divisor_policy env t.deviceType op = .ok (d, op', ws) →
      b.hasattr (_allreduce_function_factory t) = false →
      _allreduce_async env b st t o name op pre post =
        ⟨.error (.unsupportedType t.ttype), st, [], ws⟩) ∧
    (_allreduce_divisor_policy env t.deviceType op = .ok (d, op', ws) →
      b.hasattr (_allreduce_function_factory t) = true →
      t.contiguous = false →
      _allreduce_async env b st t o name op pre post =
        ⟨.error .notContiguous, st, [], ws⟩) ∧
    (_allreduce_divisor_policy env ts.headI.deviceType op = .ok (d, op', ws) →
      b.hasattr (_grouped_allreduce_function_factory ts.headI) = false →
      _grouped_allreduce_async env b st ts os name op pre post =
        ⟨.error (.unsupportedType ts.headI.ttype), st, [], ws⟩) ∧
    (_allreduce_divisor_policy env ts.headI.deviceType op = .ok (d, op', ws) →
      b.hasattr (_grouped_allreduce_function_factory ts.headI) = true →
      ts.headI.contiguous = false →
      _grouped_allreduce_async env b st ts os name op pre post =
        ⟨.error .notContiguous, st, [], ws⟩) ∧
    (b.hasattr (_allgather_function_factory t) = false →
      _allgather_async b st t o name =
        ⟨.error (.unsupportedType t.ttype), st, [], []⟩) ∧
    (b.hasattr (_allgather_function_factory t) = true →
      t.contiguous = false →
      _allgather_async b st t o name =
        ⟨.error .notContiguous, st, [], []⟩) ∧
    (b.hasattr (_broadcast_function_factory t) = false →
      _broadcast_async b st t o root name =
        ⟨.error (.unsupportedType t.ttype), st, [], []⟩) ∧
    (b.hasattr (_broadcast_function_factory t) = true →
      t.contiguous = false →
      _broadcast_async b st t o root name =
        ⟨.error .notContiguous, st, [], []⟩) ∧
    (b.hasattr (_alltoall_function_factory t) = false →
      _alltoall_async b st t splits o name =
        ⟨.error (.unsupportedType t.ttype), st, [], []⟩) ∧
    (b.hasattr (_alltoall_function_factory t) = true →
      t.contiguous = false →
      _alltoall_async b st t splits o name =
        ⟨.error .notContiguous, st, [], []⟩) := by
  refine ⟨?_, ?_, ?_, ?_, ?_, ?_, ?_, ?_, ?_, ?_⟩
  · intro hpol hsup
    exact _allreduce_async_unsupported env b st t o name op pre post d op' ws
      hpol hsup
  · intro hpol hsup hc
    exact _allreduce_async_noncontiguous env b st t o name op pre post d op'
      ws hpol hsup hc
  · intro hpol hsup
    exact _grouped_allreduce_async_unsupported env b st ts os name op pre post
      d op' ws hpol hsup
  · intro hpol hsup hc
    exact _grouped_allreduce_async_noncontiguous env b st ts os name op pre
      post d op' ws hpol hsup hc
  · intro hsup
    unfold _allgather_async _check_function
    simp [hsup]
  · intro hsup hc
    unfold _allgather_async _check_function
    simp [hsup, hc]
  · intro hsup
    unfold _broadcast_async _check_function
    simp [hsup]
  · intro hsup hc
    unfold _broadcast_async _check_function
    simp [hsup, hc]
  · intro hsup
    unfold _alltoall_async _check_function
    simp [hsup]
  · intro hsup hc
    unfold _alltoall_async _check_function
    simp [hsup, hc]

/-- Witness for C4: every dispatcher rejects an unsupported tensor type (on a
backend with no entry points) and a non-contiguous tensor, each before
submission and leaving the handle map unchanged. -/
theorem validation_errors_pre_dispatch_witness :
    (_allreduce_async envPlain noSupportBackend [] cpuFloatTensor
        cpuFloatTensor none .Sum 1 1 =
      ⟨.error (.unsupportedType cpuFloatTensor.ttype), [], [], []⟩) ∧
    (_allreduce_async envPlain testBackend [] stridedTensor stridedTensor
        none .Sum 1 1 = ⟨.error .notContiguous, [], [], []⟩) ∧
    (_grouped_allreduce_async envPlain noSupportBackend [] [cpuFloatTensor]
        [cpuFloatTensor] none .Sum 1 1 =
      ⟨.error (.unsupportedType cpuFloatTensor.ttype), [], [], []⟩) ∧
    (_grouped_allreduce_async envPlain testBackend [] [stridedTensor]
        [stridedTensor] none .Sum 1 1 =
      ⟨.error .notContiguous, [], [], []⟩) ∧
    (_allgather_async noSupportBackend [] cpuFloatTensor cpuFloatTensor none =
      ⟨.error (.unsupportedType cpuFloatTensor.ttype), [], [], []⟩) ∧
    (_allgather_async testBackend [] stridedTensor stridedTensor none =
      ⟨.error .notContiguous, [], [], []⟩) ∧
    (_broadcast_async noSupportBackend [] cpuFloatTensor cpuFloatTensor 0
        none = ⟨.error (.unsupportedType cpuFloatTensor.ttype), [], [], []⟩) ∧
    (_broadcast_async testBackend [] stridedTensor stridedTensor 0 none =
      ⟨.error .notContiguous, [], [], []⟩) ∧
    (_alltoall_async noSupportBackend [] cpuFloatTensor none cpuFloatTensor
        none = ⟨.error (.unsupportedType cpuFloatTensor.ttype), [], [], []⟩) ∧
    (_alltoall_async testBackend [] stridedTensor none stridedTensor none =
      ⟨.error .notContiguous, [], [], []⟩) :=
  ⟨(validation_errors_pre_dispatch envPlain noSupportBackend [] cpuFloatTensor
      cpuFloatTensor [] [] none .Sum 1 1 1 .Sum [] 0 none).1 rfl rfl,
   (validation_errors_pre_dispatch envPlain testBackend [] stridedTensor
      stridedTensor [] [] none .Sum 1 1 1 .Sum [] 0 none).2.1 rfl rfl rfl,
   (validation_errors_pre_dispatch envPlain noSupportBackend [] cpuFloatTensor
      cpuFloatTensor [cpuFloatTensor] [cpuFloatTensor] none .Sum 1 1 1 .Sum []
      0 none).2.2.1 rfl rfl,
   (validation_errors_pre_dispatch envPlain testBackend [] stridedTensor
      stridedTensor [stridedTensor] [stridedTensor] none .Sum 1 1 1 .Sum [] 0
      none).2.2.2.1 rfl rfl rfl,
   (validation_errors_pre_dispatch envPlain noSupportBackend [] cpuFloatTensor
      cpuFloatTensor [] [] none .Sum 1 1 1 .Sum [] 0 none).2.2.2.2.1 rfl,
   (validation_errors_pre_dispatch envPlain testBackend [] stridedTensor
      stridedTensor [] [] none .Sum 1 1 1 .Sum [] 0 none).2.2.2.2.2.1 rfl rfl,
   (validation_errors_pre_dispatch envPlain noSupportBackend [] cpuFloatTensor
      cpuFloatTensor [] [] none .Sum 1 1 1 .Sum [] 0 none).2.2.2.2.2.2.1 rfl,
   (validation_errors_pre_dispatch envPlain testBackend [] stridedTensor
      stridedTensor [] [] none .Sum 1 1 1 .Sum [] 0
      none).2.2.2.2.2.2.2.1 rfl rfl,
   (validation_errors_pre_dispatch envPlain noSupportBackend [] cpuFloatTensor
      cpuFloatTensor [] [] none .Sum 1 1 1 .Sum [] 0
      none).2.2.2.2.2.2.2.2.1 rfl,
   (validation_errors_pre_dispatch envPlain testBackend [] stridedTensor
      stridedTensor [] [] none .Sum 1 1 1 .Sum [] 0
      none).2.2.2.2.2.2.2.2.2 rfl rfl⟩

/-- The only errors `_check_function` raises are the unsupported-type error
and the layout error. -/
theorem _check_function_error_forms (b : Backend) (ff : Tensor → String)
    (t : Tensor) (e : HvdError)
    (h : _check_function b ff t = .error e) :
    e = .unsupportedType t.ttype ∨ e = .notContiguous := by
  unfold _check_function at h
  cases hs : b.hasattr (ff t) with
  | false =>
    simp [hs] at h
    exact Or.inl h.symm
  | true =>
    cases hcont : t.contiguous with
    | false =>
      simp [hs, hcont] at h
      exact Or.inr h.symm
    | true => simp [hs, hcont] at h

/-- With a successful policy and a valid tensor, `_allreduce_async` reaches
backend submission: its result is a handle or a wrapped backend error. -/
theorem _allreduce_async_valid_result (env : Env) (b : Backend)
    (st : HandleMap) (t o : Tensor) (name : Option String) (op : ReduceOp)
    (pre post : Rat) (d : Nat) (op' : ReduceOp) (ws : List String)
    (hpol : _allreduce_divisor_policy env t.deviceType op = .ok (d, op', ws))
    (hsup : b.hasattr (_allreduce_function_factory t) = true)
    (hc : t.contiguous = true) :
    (∃ h, (_allreduce_async env b st t o name op pre post).result = .ok h) ∨
    (∃ m, (_allreduce_async env b st t o name op pre post).result =
      .error (.internalError m)) := by
  unfold _allreduce_async
  rw [hpol]
  unfold _check_function
  simp only [hsup, hc, Bool.not_true, Bool.false_eq_true, if_false]
  cases hcall : b.call (Submission.allreduce (_allreduce_function_factory t)
      t o d (name.getD _NULL) op' pre post) with
  | error e => exact Or.inr ⟨e, rfl⟩
  | ok h => exact Or.inl ⟨h, rfl⟩

/-- With a successful policy and a valid first tensor,
`_grouped_allreduce_async` reaches backend submission: its result is a handle
or a wrapped backend error, never a validation or capability error. -/
theorem _grouped_allreduce_async_valid_result (env : Env) (b : Backend)
    (st : HandleMap) (ts os : List Tensor) (name : Option String)
    (op : ReduceOp) (pre post : Rat) (d : Nat) (op' : ReduceOp)
    (ws : List String)
    (hpol : _allreduce_divisor_policy env ts.headI.deviceType op =
      .ok (d, op', ws))
    (hsup : b.hasattr (_grouped_allreduce_function_factory ts.headI) = true)
    (hc : ts.headI.contiguous = true) :
    (∃ h, (_grouped_allreduce_async env b st ts os name op pre post).result =
      .ok h) ∨
    (∃ m, (_grouped_allreduce_async env b st ts os name op pre post).result =
      .error (.internalError m)) := by
  unfold _grouped_allreduce_async
  rw [hpol]
  unfold _check_function
  simp only [hsup, hc, Bool.not_true, Bool.false_eq_true, if_false]
  cases hcall : b.call (Submission.groupedAllreduce
      (_grouped_allreduce_function_factory ts.headI) ts os d (name.getD _NULL)
      op' pre post) with
  | error e => exact Or.inr ⟨e, rfl⟩
  | ok h => exact Or.inl ⟨h, rfl⟩

/-- With a successful policy, `_allreduce_async` never raises the capability
error: its result is a handle or one of the two validation errors or a
wrapped backend error. -/
theorem _allreduce_async_no_capability_error (env : Env) (b : Backend)
    (st : HandleMap) (t o : Tensor) (name : Option String) (op : ReduceOp)
    (pre post : Rat) (d : Nat) (op' : ReduceOp) (ws : List String)
    (hpol : _allreduce_divisor_policy env t.deviceType op = .ok (d, op', ws)) :
    ∀ m, (_allreduce_async env b st t o name op pre post).result ≠
      .error (.notImplemented m) := by
  intro m
  cases hs : b.hasattr (_allreduce_function_factory t) with
  | false =>
    rw [_allreduce_async_unsupported env b st t o name op pre post d op' ws
      hpol hs]
    simp
  | true =>
    cases hcont : t.contiguous with
    | false =>
      rw [_allreduce_async_noncontiguous env b st t o name op pre post d op'
        ws hpol hs hcont]
      simp
    | true =>
      rcases _allreduce_async_valid_result env b st t o name op pre post d
        op' ws hpol hs hcont with ⟨h, hr⟩ | ⟨e, hr⟩ <;> rw [hr] <;> simp

/-- With a successful policy, `_grouped_allreduce_async` never raises the
capability error. -/
theorem _grouped_allreduce_async_no_capability_error (env : Env) (b : Backend)
    (st : HandleMap) (ts os : List Tensor) (name : Option String)
    (op : ReduceOp) (pre post : Rat) (d : Nat) (op' : ReduceOp)
    (ws : List String)
    (hpol : _allreduce_divisor_policy env ts.headI.deviceType op =
      .ok (d, op', ws)) :
    ∀ m, (_grouped_allreduce_async env b st ts os name op pre post).result ≠
      .error (.notImplemented m) := by
  intro m
  cases hs : b.hasattr (_grouped_allreduce_function_factory ts.headI) with
  | false =>
    rw [_grouped_allreduce_async_unsupported env b st ts os name op pre post
      d op' ws hpol hs]
    simp
  | true =>
    cases hcont : ts.headI.contiguous with
    | false =>
      rw [_grouped_allreduce_async_noncontiguous env b st ts os name op pre
        post d op' ws hpol hs hcont]
      simp
    | true =>
      rcases _grouped_allreduce_async_valid_result env b st ts os name op pre
        post d op' ws hpol hs hcont with ⟨h, hr⟩ | ⟨e, hr⟩ <;> rw [hr] <;>
        simp

/-- C9: an Adasum allreduce on a non-CPU tensor with a GPU available but NCCL
not built takes the warning-and-fallback path: the policy yields divisor 1
and the warning with no topology validation of any kind, the dispatch never
raises a capability error regardless of homogeneity or rank counts, and a
valid tensor proceeds to submission with divisor 1 (single-tensor and grouped
dispatch alike). -/
theorem adasum_gpu_no_nccl_fallback (env : Env) (b : Backend)
    (st : HandleMap) (t o : Tensor) (ts os : List Tensor)
    (name : Option String) (pre post : Rat)
    (hdev : t.deviceType ≠ "cpu") (hgpu : env.gpu_available = true)
    (hnccl : env.nccl_built = false)
    (hdevg : ts.headI.deviceType ≠ "cpu") :
    (_allreduce_divisor_policy env t.deviceType .Adasum =
      .ok (1, .Adasum, [adasumGpuMpiWarning])) ∧
    (∀ m, (_allreduce_async env b st t o name .Adasum pre post).result ≠
      .error (.notImplemented m)) ∧
    (b.hasattr (_allreduce_function_factory t) = true →
      t.contiguous = true →
      (_allreduce_async env b st t o name .Adasum pre post).submitted.map
          Submission.divisorArg = [some 1] ∧
      (_allreduce_async env b st t o name .Adasum pre post).warnings =
        [adasumGpuMpiWarning]) ∧
    (∀ m, (_grouped_allreduce_async env b st ts os name .Adasum pre
      post).result ≠ .error (.notImplemented m)) ∧
    (b.hasattr (_grouped_allreduce_function_factory ts.headI) = true →
      ts.headI.contiguous = true →
      (_grouped_allreduce_async env b st ts os name .Adasum pre
          post).submitted.map Submission.divisorArg = [some 1] ∧
      (_grouped_allreduce_async env b st ts os name .Adasum pre
          post).warnings = [adasumGpuMpiWarning]) := by
  have hpol := policy_adasum_gpu_no_nccl env t.deviceType hdev hgpu hnccl
  have hpolg := policy_adasum_gpu_no_nccl env ts.headI.deviceType hdevg hgpu
    hnccl
  refine ⟨hpol, ?_, ?_, ?_, ?_⟩
  · exact _allreduce_async_no_capability_error env b st t o name .Adasum pre
      post 1 .Adasum [adasumGpuMpiWarning] hpol
  · intro hsup hc
    have h := _allreduce_async_submits env b st t o name .Adasum pre post 1
      .Adasum [adasumGpuMpiWarning] hpol hsup hc
    exact ⟨by simp [h.1, Submission.divisorArg], h.2⟩
  · exact _grouped_allreduce_async_no_capability_error env b st ts os name
      .Adasum pre post 1 .Adasum [adasumGpuMpiWarning] hpolg
  · intro hsup hc
    have h := _grouped_allreduce_async_submits env b st ts os name .Adasum
      pre post 1 .Adasum [adasumGpuMpiWarning] hpolg hsup hc
    exact ⟨by simp [h.1, Submission.divisorArg], h.2⟩

/-- Witness for C9: on a heterogeneous cluster with a non-power-of-two rank
count and NCCL absent, the Adasum dispatch warns, uses divisor 1, and raises
no capability error. -/
theorem adasum_gpu_no_nccl_fallback_witness :
    (_allreduce_divisor_policy envNoNccl cudaFloatTensor.deviceType .Adasum =
      .ok (1, .Adasum, [adasumGpuMpiWarning])) ∧
    (∀ m, (_allreduce_async envNoNccl testBackend [] cudaFloatTensor
      cudaFloatTensor none .Adasum 1 1).result ≠
      .error (.notImplemented m)) ∧
    ((_allreduce_async envNoNccl testBackend [] cudaFloatTensor
        cudaFloatTensor none .Adasum 1 1).submitted.map
        Submission.divisorArg = [some 1] ∧
      (_allreduce_async envNoNccl testBackend [] cudaFloatTensor
        cudaFloatTensor none .Adasum 1 1).warnings = [adasumGpuMpiWarning]) ∧
    ((_grouped_allreduce_async envNoNccl testBackend [] [cudaFloatTensor]
        [cudaFloatTensor] none .Adasum 1 1).submitted.map
        Submission.divisorArg = [some 1] ∧
      (_grouped_allreduce_async envNoNccl testBackend [] [cudaFloatTensor]
        [cudaFloatTensor] none .Adasum 1 1).warnings =
        [adasumGpuMpiWarning]) :=
  ⟨(adasum_gpu_no_nccl_fallback envNoNccl testBackend [] cudaFloatTensor
      cudaFloatTensor [cudaFloatTensor] [cudaFloatTensor] none 1 1
      (by decide) rfl rfl (by decide)).1,
   (adasum_gpu_no_nccl_fallback envNoNccl testBackend [] cudaFloatTensor
      cudaFloatTensor [cudaFloatTensor] [cudaFloatTensor] none 1 1
      (by decide) rfl rfl (by decide)).2.1,
   (adasum_gpu_no_nccl_fallback envNoNccl testBackend [] cudaFloatTensor
      cudaFloatTensor [cudaFloatTensor] [cudaFloatTensor] none 1 1
      (by decide) rfl rfl (by decide)).2.2.1 rfl rfl,
   (adasum_gpu_no_nccl_fallback envNoNccl testBackend [] cudaFloatTensor
      cudaFloatTensor [cudaFloatTensor] [cudaFloatTensor] none 1 1
      (by decide) rfl rfl (by decide)).2.2.2.2 rfl rfl⟩

/-- C10: grouped allreduce validates only the first tensor of the list: with
a supported, contiguous first tensor the call reaches backend submission
(carrying every tensor of the list) and raises no unsupported-type, layout,
or capability error, whatever the remaining tensors are. -/
theorem grouped_validation_first_tensor_only (env : Env) (b : Backend)
    (st : HandleMap) (t : Tensor) (rest os : List Tensor)
    (name : Option String) (op : ReduceOp) (pre post : Rat) (d : Nat)
    (op' : ReduceOp) (ws : List String)
    (hpol : _allreduce_divisor_policy env t.deviceType op = .ok (d, op', ws))
    (hsup : b.hasattr (_grouped_allreduce_function_factory t) = true)
    (hc : t.contiguous = true) :
    ((_grouped_allreduce_async env b st (t :: rest) os name op pre
        post).submitted =
      [.groupedAllreduce (_grouped_allreduce_function_factory t) (t :: rest)
        os d (name.getD _NULL) op' pre post]) ∧
    ((∃ h, (_grouped_allreduce_async env b st (t :: rest) os name op pre
        post).result = .ok h) ∨
     (∃ m, (_grouped_allreduce_async env b st (t :: rest) os name op pre
        post).result = .error (.internalError m))) := by
  have hpol' : _allreduce_divisor_policy env
      (t :: rest).headI.deviceType op = .ok (d, op', ws) := hpol
  have hsup' : b.hasattr
      (_grouped_allreduce_function_factory (t :: rest).headI) = true := hsup
  have hc' : (t :: rest).headI.contiguous = true := hc
  have hsub := _grouped_allreduce_async_submits env b st (t :: rest) os name
    op pre post d op' ws hpol' hsup' hc'
  refine ⟨hsub.1, ?_⟩
  exact _grouped_allreduce_async_valid_result env b st (t :: rest) os name op
    pre post d op' ws hpol' hsup' hc'

/-- Witness for C10: a list whose first tensor is valid but whose second
tensor is non-contiguous and of an unsupported type still reaches backend
submission. -/
theorem grouped_validation_first_tensor_only_witness :
    ((_grouped_allreduce_async envPlain testBackend []
        [cpuFloatTensor, stridedTensor] [cpuFloatTensor, stridedTensor] none
        .Sum 1 1).submitted =
      [.groupedAllreduce (_grouped_allreduce_function_factory cpuFloatTensor)
        [cpuFloatTensor, stridedTensor] [cpuFloatTensor, stridedTensor] 1
        ((none : Option String).getD _NULL) .Sum 1 1]) ∧
    ((∃ h, (_grouped_allreduce_async envPlain testBackend []
        [cpuFloatTensor, stridedTensor] [cpuFloatTensor, stridedTensor] none
        .Sum 1 1).result = .ok h) ∨
     (∃ m, (_grouped_allreduce_async envPlain testBackend []
        [cpuFloatTensor, stridedTensor] [cpuFloatTensor, stridedTensor] none
        .Sum 1 1).result = .error (.internalError m))) :=
  grouped_validation_first_tensor_only envPlain testBackend [] cpuFloatTensor
    [stridedTensor] [cpuFloatTensor, stridedTensor] none .Sum 1 1 1 .Sum []
    rfl rfl rfl

/-- C5: the allgather backward rule on rank k sum-reduces the incoming
per-rank gradients, then slices the reduced gradient at the offset given by
the row counts of ranks below k with rank k's own row count; that slice has
exactly rank k's extent, and applied to the forward concatenation it recovers
exactly the rows rank k contributed. -/
theorem allgather_backward_recovers [Add α] (xs gs : List (List α)) (k : Nat)
    (hk : k < xs.length) (hne : gs ≠ [])
    (hlen : ∀ g ∈ gs, g.length = (allgatherForward xs).length) :
    (allgatherBackward (xs.map List.length) k (xs.get ⟨k, hk⟩).length gs =
      ((sumReduce gs).drop (((xs.map List.length).take k).sum)).take
        (xs.get ⟨k, hk⟩).length) ∧
    ((allgatherBackward (xs.map List.length) k (xs.get ⟨k, hk⟩).length
        gs).length = (xs.get ⟨k, hk⟩).length) ∧
    (((allgatherForward xs).drop (((xs.map List.length).take k).sum)).take
        (xs.get ⟨k, hk⟩).length = xs.get ⟨k, hk⟩) := by
  have harr : allgatherBackward (xs.map List.length) k
      (xs.get ⟨k, hk⟩).length gs =
      ((sumReduce gs).drop (((xs.map List.length).take k).sum)).take
        (xs.get ⟨k, hk⟩).length := by
    unfold allgatherBackward
    by_cases hk0 : k = 0
    · subst hk0; simp
    · simp [hk0]
  have hjoin : ((allgatherForward xs).drop
      (((xs.map List.length).take k).sum)).take (xs.get ⟨k, hk⟩).length =
      xs.get ⟨k, hk⟩ := join_slice_block xs k hk
  refine ⟨harr, ?_, hjoin⟩
  rw [harr]
  have hred : (sumReduce gs).length = (allgatherForward xs).length :=
    sumReduce_length gs _ hne hlen
  have hflat : (allgatherForward xs).length = ((xs.map List.length)).sum := by
    simp [allgatherForward]
  have hkl : k < (xs.map List.length).length := by simpa using hk
  have hgetmap : (xs.map List.length)[k] = (xs.get ⟨k, hk⟩).length := by
    simp [List.getElem_map]
  have hle : ((xs.map List.length).take (k + 1)).sum ≤
      (xs.map List.length).sum := by
    conv_rhs => rw [← List.take_append_drop (k + 1) (xs.map List.length)]
    rw [List.sum_append]
    exact Nat.le_add_right _ _
  have hbound : ((xs.map List.length).take k).sum +
      (xs.get ⟨k, hk⟩).length ≤ (sumReduce gs).length := by
    rw [hred, hflat]
    calc ((xs.map List.length).take k).sum + (xs.get ⟨k, hk⟩).length
        = ((xs.map List.length).take (k + 1)).sum := by
          rw [List.sum_take_succ _ k hkl, hgetmap]
      _ ≤ _ := hle
  rw [List.length_take, List.length_drop]
  omega

/-- Witness for C5: 3 ranks with row counts 1, 2, 1; rank 1's backward slice
starts at offset 1, has length 2, and recovers its contributed rows. -/
theorem allgather_backward_recovers_witness :
    (allgatherBackward ([[(10 : Int)], [20, 30], [40]].map List.length) 1
        (([[(10 : Int)], [20, 30], [40]].get ⟨1, by decide⟩).length)
        [[1, 1, 1, 1], [2, 2, 2, 2]] =
      ((sumReduce [[(1 : Int), 1, 1, 1], [2, 2, 2, 2]]).drop
        ((([[(10 : Int)], [20, 30], [40]].map List.length).take 1).sum)).take
        (([[(10 : Int)], [20, 30], [40]].get ⟨1, by decide⟩).length)) ∧
    ((allgatherBackward ([[(10 : Int)], [20, 30], [40]].map List.length) 1
        (([[(10 : Int)], [20, 30], [40]].get ⟨1, by decide⟩).length)
        [[1, 1, 1, 1], [2, 2, 2, 2]]).length =
      ([[(10 : Int)], [20, 30], [40]].get ⟨1, by decide⟩).length) ∧
    (((allgatherForward [[(10 : Int)], [20, 30], [40]]).drop
        ((([[(10 : Int)], [20, 30], [40]].map List.length).take 1).sum)).take
        (([[(10 : Int)], [20, 30], [40]].get ⟨1, by decide⟩).length) =
      [[(10 : Int)], [20, 30], [40]].get ⟨1, by decide⟩) :=
  allgather_backward_recovers [[(10 : Int)], [20, 30], [40]]
    [[1, 1, 1, 1], [2, 2, 2, 2]] 1 (by decide) (by decide) (by decide)

/-- C6: the broadcast backward rule yields the Sum-reduction of the incoming
per-rank gradients on the root rank and an entirely-zero gradient (of the
reduced gradient's shape) on every other rank, for any root selection. -/
theorem broadcast_backward_root_and_nonroot [Add α] [MulZeroClass α]
    (r root : Nat) (gs : List (List α)) :
    (r = root → broadcastBackward r root gs = sumReduce gs) ∧
    (r ≠ root → ∀ y ∈ broadcastBackward r root gs, y = 0) ∧
    (r ≠ root →
      (broadcastBackward r root gs).length = (sumReduce gs).length) := by
  refine ⟨?_, ?_, ?_⟩
  · intro hr
    unfold broadcastBackward
    simp [hr]
  · intro hr y hy
    unfold broadcastBackward at hy
    rw [if_pos hr] at hy
    rcases List.mem_map.mp hy with ⟨x, _, rfl⟩
    exact mul_zero x
  · intro hr
    unfold broadcastBackward
    simp [hr]

/-- Witness for C6: 2 ranks with gradients [1, 2] and [3, 4]; the root gets
the sum [4, 6] and the non-root gets all zeros of the same length. -/
theorem broadcast_backward_root_and_nonroot_witness :
    (broadcastBackward 0 0 [[(1 : Int), 2], [3, 4]] =
      sumReduce [[(1 : Int), 2], [3, 4]]) ∧
    (∀ y ∈ broadcastBackward 1 0 [[(1 : Int), 2], [3, 4]], y = 0) ∧
    ((broadcastBackward 1 0 [[(1 : Int), 2], [3, 4]]).length =
      (sumReduce [[(1 : Int), 2], [3, 4]]).length) :=
  ⟨(broadcast_backward_root_and_nonroot 0 0 [[(1 : Int), 2], [3, 4]]).1 rfl,
   (broadcast_backward_root_and_nonroot 1 0 [[(1 : Int), 2], [3, 4]]).2.1
     (by decide),
   (broadcast_backward_root_and_nonroot 1 0 [[(1 : Int), 2], [3, 4]]).2.2
     (by decide)⟩

/-- A successful lookup implies dict membership. -/
theorem hmContains_of_lookup_some (m : HandleMap) (h : Handle) (e : Entry)
    (hl : hmLookup m h = some e) : hmContains m h = true := by
  induction m with
  | nil => simp [hmLookup] at hl
  | cons p rest ih =>
    obtain ⟨k, v⟩ := p
    unfold hmContains
    rw [List.any_cons]
    by_cases hk : k = h
    · simp [hk]
    · rw [hmLookup, if_neg hk] at hl
      have hr := ih hl
      unfold hmContains at hr
      simp [hr]

/-- After an erase, the handle is no longer in the map. -/
theorem hmContains_erase (m : HandleMap) (h : Handle) :
    hmContains (hmErase m h) h = false := by
  induction m with
  | nil => rfl
  | cons p rest ih =>
    obtain ⟨k, v⟩ := p
    by_cases hk : k = h
    · simpa [hmErase, List.filter_cons, hk] using ih
    · simp only [hmErase, List.filter_cons] at ih ⊢
      have hkh : ((k, v).1 != h) = true := by simpa using hk
      rw [if_pos hkh]
      unfold hmContains
      rw [List.any_cons]
      simp only [hmContains] at ih
      simp [hk, ih]

/-- C7: synchronize on a handle with no entry (including one already
consumed) returns nothing without failing; on a handle with an entry (and a
successful backend wait) it removes the entry and returns the stored output
reference, and a second synchronize on the same handle is a no-op. -/
theorem synchronize_contract (b : Backend) (st : HandleMap) (h : Handle) :
    (hmContains st h = false → synchronize b st h = (.ok none, st)) ∧
    (∀ e, hmLookup st h = some e → b.wait h = .ok () →
      synchronize b st h = (.ok e.getLast?, hmErase st h)) ∧
    (∀ e, hmLookup st h = some e → b.wait h = .ok () →
      synchronize b (synchronize b st h).2 h =
        (.ok none, (synchronize b st h).2)) := by
  refine ⟨?_, ?_, ?_⟩
  · intro hnc
    unfold synchronize
    simp [hnc]
  · intro e hl hw
    have hc := hmContains_of_lookup_some st h e hl
    unfold synchronize
    simp [hc, hw, hl]
  · intro e hl hw
    have hc := hmContains_of_lookup_some st h e hl
    have h2 : (synchronize b st h).2 = hmErase st h := by
      unfold synchronize
      simp [hc, hw]
    rw [h2]
    unfold synchronize
    simp [hmContains_erase st h]

/-- Test fixture: a handle map holding one pending entry under handle 5. -/
def syncMap : HandleMap := [(5, [.single cpuFloatTensor, .single cudaFloatTensor])]

/-- Witness for C7: synchronizing an absent handle is a no-op, synchronizing
handle 5 consumes the entry and returns the output, and synchronizing it
again returns nothing. -/
theorem synchronize_contract_witness :
    (synchronize testBackend [] 5 = (.ok none, [])) ∧
    (synchronize testBackend syncMap 5 =
      (.ok ([Operand.single cpuFloatTensor,
        Operand.single cudaFloatTensor].getLast?), hmErase syncMap 5)) ∧
    (synchronize testBackend (synchronize testBackend syncMap 5).2 5 =
      (.ok none, (synchronize testBackend syncMap 5).2)) :=
  ⟨(synchronize_contract testBackend [] 5).1 rfl,
   (synchronize_contract testBackend syncMap 5).2.1
     [.single cpuFloatTensor, .single cudaFloatTensor] rfl rfl,
   (synchronize_contract testBackend syncMap 5).2.2
     [.single cpuFloatTensor, .single cudaFloatTensor] rfl rfl⟩

/-- C8 counterexample: registering under a handle already present in the map
is not an error: dispatching with a backend that returns the already-present
handle 7 succeeds and silently replaces the stored entry. -/
theorem register_twice_counterexample :
    (_allreduce_async envPlain testBackend
        [(7, [.single cpuFloatTensor, .single cpuFloatTensor])]
        cudaFloatTensor cudaFloatTensor none .Sum 1 1).result = .ok 7 ∧
    (_allreduce_async envPlain testBackend
        [(7, [.single cpuFloatTensor, .single cpuFloatTensor])]
        cudaFloatTensor cudaFloatTensor none .Sum 1 1).hmap =
      [(7, [.single cudaFloatTensor, .single cudaFloatTensor])] := by
  constructor <;> rfl

/-- C8 amended: registration under an already-present handle is a silent
in-place update, never a failure: the handle map binds the handle to the new
entry and every other handle's binding is unchanged. -/
theorem register_overwrites (st : HandleMap) (h : Handle) (v : Entry) :
    hmLookup (hmSet st h v) h = some v ∧
    (∀ h', h' ≠ h → hmLookup (hmSet st h v) h' = hmLookup st h') := by
  induction st with
  | nil =>
    refine ⟨by simp [hmSet, hmLookup], ?_⟩
    intro h' hne
    simp [hmSet, hmLookup, hne.symm]
  | cons p rest ih =>
    obtain ⟨k, w⟩ := p
    by_cases hk : k = h
    · subst hk
      refine ⟨by simp [hmSet, hmLookup], ?_⟩
      intro h' hne
      simp [hmSet, hmLookup, if_neg (fun hx : k = h' => hne hx.symm)]
    · refine ⟨?_, ?_⟩
      · rw [hmSet, if_neg hk, hmLookup, if_neg hk]
        exact ih.1
      · intro h' hne
        rw [hmSet, if_neg hk, hmLookup, hmLookup]
        by_cases hk' : k = h'
        · simp [hk']
        · rw [if_neg hk', if_neg hk']
          exact ih.2 h' hne

/-- Witness for C8 amended: overwriting handle 7 in a two-entry map updates
its binding and leaves handle 3's binding unchanged. -/
theorem register_overwrites_witness :
    (hmLookup (hmSet [(7, [Operand.single cpuFloatTensor]),
        (3, [Operand.single cudaFloatTensor])] 7
        [Operand.single stridedTensor]) 7 =
      some [Operand.single stridedTensor]) ∧
    (hmLookup (hmSet [(7, [Operand.single cpuFloatTensor]),
        (3, [Operand.single cudaFloatTensor])] 7
        [Operand.single stridedTensor]) 3 =
      hmLookup [(7, [Operand.single cpuFloatTensor]),
        (3, [Operand.single cudaFloatTensor])] 3) :=
  ⟨(register_overwrites [(7, [Operand.single cpuFloatTensor]),
      (3, [Operand.single cudaFloatTensor])] 7
      [Operand.single stridedTensor]).1,
   (register_overwrites [(7, [Operand.single cpuFloatTensor]),
      (3, [Operand.single cudaFloatTensor])] 7
      [Operand.single stridedTensor]).2 3 (by decide)⟩

end Horovod
